import Mathlib

/-!
Verification of the restaurant-app checkout workflow.

Shallow embedding of the core workflow of the repository
(`routes_web.py`, `firestore_db.py`, `models.py`): session cart,
checkout state, payment validation and order commit, admin catalog
CRUD, and the retrying event-log writer.  Python strings are modelled
as `List Char`; Python floats (prices) as `ℚ`; the session dict and
the relational store as explicit structures.
-/

namespace Restaurant

/-- Python-style strings. -/
abbrev Str := List Char

/-- Characters stripped by Python `str.strip()` (ASCII whitespace). -/
def pyIsSpace (c : Char) : Bool :=
  c == ' ' || c == '\t' || c == '\n' || c == '\x0b' || c == '\x0c' || c == '\r'

/-- Python `str.strip()`: drop whitespace from both ends. -/
def pyStrip (cs : Str) : Str :=
  ((cs.dropWhile pyIsSpace).reverse.dropWhile pyIsSpace).reverse

/-- Python `str.replace(" ", "")`: remove every space character. -/
def removeSpaces (cs : Str) : Str :=
  cs.filter (fun c => !(c == ' '))

/-- Python `str.upper()` (ASCII model). -/
def pyUpper (cs : Str) : Str :=
  cs.map Char.toUpper

/-- Python `str.isdigit()`: non-empty and all digits (ASCII model). -/
def pyIsDigit (cs : Str) : Bool :=
  !cs.isEmpty && cs.all Char.isDigit

/-- Truthiness of an optional form string (Python `if not x`). -/
def pyTruthy (o : Option Str) : Bool :=
  match o with
  | none => false
  | some s => !s.isEmpty

/-! ### A small regular-expression engine

The source uses two anchored `re.match` patterns on stripped input, so
matching is whole-string matching.  `Reg` terms below transliterate the
source regex literals; `remainders` computes, for a regex and an input,
the list of suffixes left after matching some prefix, and `accepts`
tests for a full match.  `Lang` is the standard language semantics, and
`remainders_iff` connects the two. -/

/-- Regular expressions: character class, concatenation, alternation, option. -/
inductive Reg where
  | cls (p : Char → Bool)
  | seq (a b : Reg)
  | alt (a b : Reg)
  | opt (a : Reg)

/-- Suffixes of `cs` remaining after matching some prefix against `r`. -/
def remainders : Reg → Str → List Str
  | .cls _, [] => []
  | .cls p, c :: rest => if p c then [rest] else []
  | .seq a b, cs => ((remainders a cs).map (remainders b)).flatten
  | .alt a b, cs => remainders a cs ++ remainders b cs
  | .opt a, cs => cs :: remainders a cs

/-- Whole-string match. -/
def accepts (r : Reg) (cs : Str) : Bool :=
  decide ([] ∈ remainders r cs)

/-- Language semantics of `Reg`. -/
inductive Lang : Reg → Str → Prop where
  | cls {p c} : p c = true → Lang (.cls p) [c]
  | seq {a b u v} : Lang a u → Lang b v → Lang (.seq a b) (u ++ v)
  | altL {a b u} : Lang a u → Lang (.alt a b) u
  | altR {a b u} : Lang b u → Lang (.alt a b) u
  | optN {a} : Lang (.opt a) []
  | optS {a u} : Lang a u → Lang (.opt a) u

theorem remainders_iff (r : Reg) :
    ∀ cs rest : Str, rest ∈ remainders r cs ↔ ∃ pre, cs = pre ++ rest ∧ Lang r pre := by
  induction r with
  | cls p =>
    intro cs rest
    cases cs with
    | nil =>
      simp only [remainders, List.not_mem_nil, false_iff]
      rintro ⟨pre, h, hl⟩
      cases hl
      simp at h
    | cons c cs' =>
      simp only [remainders]
      constructor
      · intro h
        split at h
        · simp only [List.mem_singleton] at h
          subst h
          exact ⟨[c], rfl, Lang.cls (by assumption)⟩
        · simp at h
      · rintro ⟨pre, h, hl⟩
        cases hl with
        | cls hp =>
          simp only [List.cons_append, List.nil_append, List.cons.injEq] at h
          obtain ⟨rfl, rfl⟩ := h
          simp [hp]
  | seq a b iha ihb =>
    intro cs rest
    simp only [remainders, List.mem_flatten, List.mem_map]
    constructor
    · rintro ⟨l, ⟨mid, hmid, rfl⟩, hrest⟩
      obtain ⟨u, rfl, hu⟩ := (iha cs mid).mp hmid
      obtain ⟨v, rfl, hv⟩ := (ihb mid rest).mp hrest
      exact ⟨u ++ v, by simp, Lang.seq hu hv⟩
    · rintro ⟨pre, rfl, hl⟩
      cases hl with
      | seq hu hv =>
        rename_i u v
        refine ⟨remainders b (v ++ rest), ⟨v ++ rest, ?_, rfl⟩, ?_⟩
        · exact (iha _ _).mpr ⟨u, by simp, hu⟩
        · exact (ihb _ _).mpr ⟨v, rfl, hv⟩
  | alt a b iha ihb =>
    intro cs rest
    simp only [remainders, List.mem_append]
    constructor
    · rintro (h | h)
      · obtain ⟨u, rfl, hu⟩ := (iha cs rest).mp h
        exact ⟨u, rfl, Lang.altL hu⟩
      · obtain ⟨u, rfl, hu⟩ := (ihb cs rest).mp h
        exact ⟨u, rfl, Lang.altR hu⟩
    · rintro ⟨pre, rfl, hl⟩
      cases hl with
      | altL hu => exact Or.inl ((iha _ _).mpr ⟨pre, rfl, hu⟩)
      | altR hu => exact Or.inr ((ihb _ _).mpr ⟨pre, rfl, hu⟩)
  | opt a iha =>
    intro cs rest
    simp only [remainders, List.mem_cons]
    constructor
    · rintro (rfl | h)
      · exact ⟨[], rfl, Lang.optN⟩
      · obtain ⟨u, rfl, hu⟩ := (iha cs rest).mp h
        exact ⟨u, rfl, Lang.optS hu⟩
    · rintro ⟨pre, rfl, hl⟩
      cases hl with
      | optN => simp
      | optS hu => exact Or.inr ((iha _ _).mpr ⟨pre, rfl, hu⟩)

/-- Matcher correctness: `accepts` decides the language of the regex. -/
theorem accepts_iff_lang (r : Reg) (cs : Str) : accepts r cs = true ↔ Lang r cs := by
  simp only [accepts, decide_eq_true_eq]
  rw [remainders_iff]
  constructor
  · rintro ⟨pre, h, hl⟩
    rw [List.append_nil] at h
    subst h
    exact hl
  · intro h
    exact ⟨cs, by simp, h⟩

/-! ### The source regexes -/

/-- A literal character (no letter, so case flags are irrelevant). -/
def chr (c : Char) : Reg := .cls (fun x => x == c)

/-- A case-insensitive literal letter (`re.IGNORECASE`). -/
def ichar (c : Char) : Reg := .cls (fun x => x.toUpper == c)

/-- Character class `[A-Z]` under `re.IGNORECASE`. -/
def letterC : Reg :=
  .cls (fun c => (decide ('A' ≤ c) && decide (c ≤ 'Z')) || (decide ('a' ≤ c) && decide (c ≤ 'z')))

/-- Character class `\d` (ASCII model). -/
def digitC : Reg := .cls Char.isDigit

/-- Character class `\s` (ASCII model). -/
def spaceC : Reg := .cls pyIsSpace

/-- The `GIR 0AA` alternative of the UK postcode regex (case-insensitive). -/
def girReg : Reg :=
  .seq (ichar 'G') (.seq (ichar 'I') (.seq (ichar 'R')
    (.seq (chr ' ') (.seq (chr '0') (.seq (ichar 'A') (ichar 'A'))))))

/-- The `[A-Z]{1,2}\d{1,2}[A-Z]?\s?\d[A-Z]{2}` alternative. -/
def mainPostcodeReg : Reg :=
  .seq letterC (.seq (.opt letterC) (.seq digitC (.seq (.opt digitC)
    (.seq (.opt letterC) (.seq (.opt spaceC) (.seq digitC (.seq letterC letterC)))))))

/-- Source regex `UK_POSTCODE_RE`: `^(GIR 0AA|(?:[A-Z]{1,2}\d{1,2}[A-Z]?)\s?\d[A-Z]{2})$`, `re.IGNORECASE`. -/
def UK_POSTCODE_RE : Reg := .alt girReg mainPostcodeReg

/-- Validator `_is_valid_postcode`: strip, uppercase, then anchored match of `UK_POSTCODE_RE`. -/
def _is_valid_postcode (pc : Str) : Bool :=
  accepts UK_POSTCODE_RE (pyUpper (pyStrip pc))

/-- The expiry regex `^(0[1-9]|1[0-2])\/\d{2}$` from `payment_post`. -/
def expReg : Reg :=
  .seq (.alt (.seq (chr '0') (.cls (fun c => decide ('1' ≤ c) && decide (c ≤ '9'))))
             (.seq (chr '1') (.cls (fun c => decide ('0' ≤ c) && decide (c ≤ '2')))))
    (.seq (chr '/') (.seq digitC digitC))

/-! ### Session cart (`cart_add`, `cart_update`, `cart_remove`)

The session cart is a Python dict from `str(item_id)` to an int
quantity; since its keys are exactly `str` images of ints, we model it
as an insertion-ordered association list from `Nat` to `Int`. -/

/-- The cart: insertion-ordered association list `item_id ↦ quantity`. -/
abbrev Cart := List (Nat × Int)

/-- Dict lookup `cart.get(key, 0)` with default 0. -/
def cartGet (cart : Cart) (k : Nat) : Int :=
  match cart.find? (fun e => e.1 == k) with
  | some e => e.2
  | none => 0

/-- Dict lookup: `some` quantity if the key is present. -/
def cartFind (cart : Cart) (k : Nat) : Option Int :=
  (cart.find? (fun e => e.1 == k)).map (fun e => e.2)

/-- Dict assignment `cart[key] = v`: update in place, else append. -/
def cartSet : Cart → Nat → Int → Cart
  | [], k, v => [(k, v)]
  | e :: rest, k, v => if e.1 == k then (k, v) :: rest else e :: cartSet rest k v

/-- Dict removal `cart.pop(key, None)`. -/
def cartPop (cart : Cart) (k : Nat) : Cart :=
  cart.filter (fun e => !(e.1 == k))

/-- Handler `cart_add`: `cart[str(item_id)] = int(cart.get(str(item_id), 0)) + 1`. -/
def cart_add (item_id : Nat) (cart : Cart) : Cart :=
  cartSet cart item_id (cartGet cart item_id + 1)

/-- Handler `cart_update`: inc/dec by 1 per the `action` form field; entries
dropping to a quantity ≤ 0 are removed entirely. -/
def cart_update (item_id : Nat) (action : Str) (cart : Cart) : Cart :=
  let qty := cartGet cart item_id
  let qty := if action == "inc".toList then qty + 1
             else if action == "dec".toList then qty - 1
             else qty
  if qty ≤ 0 then cartPop cart item_id else cartSet cart item_id qty

/-- Handler `cart_remove`: `cart.pop(str(item_id), None)`. -/
def cart_remove (item_id : Nat) (cart : Cart) : Cart :=
  cartPop cart item_id

/-- A cart mutation request. -/
inductive CartOp where
  | add (item_id : Nat)
  | update (item_id : Nat) (action : Str)
  | remove (item_id : Nat)

/-- Apply one cart request. -/
def applyCartOp (cart : Cart) : CartOp → Cart
  | .add i => cart_add i cart
  | .update i a => cart_update i a cart
  | .remove i => cart_remove i cart

/-- Run a sequence of cart requests. -/
def runCartOps (ops : List CartOp) (cart : Cart) : Cart :=
  ops.foldl applyCartOp cart

/-- Net effect of one request on the quantity of item `x`:
`add` and `update inc` count +1, `update dec` counts −1. -/
def netOp (x : Nat) : CartOp → Int
  | .add i => if i == x then 1 else 0
  | .update i a =>
      if i == x then
        (if a == "inc".toList then 1 else if a == "dec".toList then -1 else 0)
      else 0
  | .remove _ => 0

/-- Net increments minus decrements of item `x` over a request sequence. -/
def netOps (x : Nat) (ops : List CartOp) : Int :=
  (ops.map (netOp x)).sum

/-- Whether the sequence never removes item `x`. -/
def noRemoveOf (x : Nat) (ops : List CartOp) : Bool :=
  ops.all (fun op => match op with | .remove i => !(i == x) | _ => true)

/-- Starting from a running net of `n`, the net for `x` stays ≥ 0 after
every prefix of `ops`. -/
def prefixNetsOk (x : Nat) : List CartOp → Int → Bool
  | [], _ => true
  | op :: rest, n =>
    let m := n + netOp x op
    decide (0 ≤ m) && prefixNetsOk x rest m

/-! ### Data model (`models.py`) and the relational store -/

/-- Row of the `menu_items` table. -/
structure MenuItem where
  id : Nat
  name : Str
  category : Str
  description : Option Str
  price : ℚ
  image : Option String
deriving DecidableEq

/-- Row of the `orders` table (`status` defaults to `"PLACED"`; `payment_post` creates
orders with the default). -/
structure Order where
  id : Nat
  user_id : Nat
  status : String
deriving DecidableEq

/-- Row of the `order_items` table. -/
structure OrderItem where
  id : Nat
  order_id : Nat
  menu_item_id : Nat
  qty : Int
  unit_price : ℚ
deriving DecidableEq

/-- The relational store, with autoincrement counters for primary keys. -/
structure DB where
  menuItems : List MenuItem
  orders : List Order
  orderItems : List OrderItem
  nextOrderId : Nat
  nextOrderItemId : Nat
deriving DecidableEq

/-- Delivery details held in `session["checkout"]` (always a 6-key dict,
hence always truthy when present). -/
structure CheckoutData where
  full_name : Str
  phone : Str
  address1 : Str
  address2 : Str
  city : Str
  postcode : Str
deriving DecidableEq

/-- The per-user session state used by the checkout workflow. -/
structure Session where
  user_id : Nat
  email : String
  cart : Cart
  checkout : Option CheckoutData
deriving DecidableEq

/-- Rendered page / redirect target of a handler. -/
inductive Route where
  | cartView
  | checkoutPage
  | paymentPage
  | ordersPage
  | adminMenuPage
  | serverError
deriving DecidableEq

/-! ### Delivery-details step (`checkout_post`) -/

/-- The delivery-details form. -/
structure CheckoutForm where
  full_name : Str
  phone : Str
  address1 : Str
  address2 : Str
  city : Str
  postcode : Str
deriving DecidableEq

/-- The normalized values `checkout_post` stores in `session["checkout"]`
(stored on both the failure and the success path). -/
def checkoutFormData (f : CheckoutForm) : CheckoutData :=
  { full_name := pyStrip f.full_name
    phone := pyStrip f.phone
    address1 := pyStrip f.address1
    address2 := pyStrip f.address2
    city := pyStrip f.city
    postcode := pyUpper (pyStrip f.postcode) }

/-- The accumulated validation errors of `checkout_post`. -/
def checkoutErrors (f : CheckoutForm) : List String :=
  let d := checkoutFormData f
  (if d.full_name.isEmpty then ["Full name is required."] else [])
  ++ (if d.phone.isEmpty then ["Phone number is required."] else [])
  ++ (if d.address1.isEmpty then ["Address line 1 is required."] else [])
  ++ (if d.city.isEmpty then ["Town/City is required."] else [])
  ++ (if !_is_valid_postcode d.postcode then ["Please enter a valid UK postcode."] else [])

/-- Result of a handler that only touches the session. -/
structure SessionOutcome where
  sess : Session
  route : Route
  flashes : List String
deriving DecidableEq

/-- Handler `checkout_post`: validate the delivery form; store the (possibly
invalid) submitted values in `session["checkout"]` in either case;
redirect back to the checkout page on errors, else to the payment page. -/
def checkout_post (f : CheckoutForm) (sess : Session) : SessionOutcome :=
  let data := checkoutFormData f
  let errors := checkoutErrors f
  if !errors.isEmpty then
    { sess := { sess with checkout := some data }, route := .checkoutPage, flashes := errors }
  else
    { sess := { sess with checkout := some data }, route := .paymentPage, flashes := [] }

/-- Handler `payment` (GET `/payment`): gate on a non-empty cart and on
`session.get("checkout")` being truthy. -/
def payment (sess : Session) : Route :=
  if sess.cart.isEmpty then .cartView
  else if sess.checkout.isNone then .checkoutPage
  else .paymentPage

/-! ### Payment validation (`payment_post`, server-side checks) -/

/-- The payment form (`agree` is absent when the checkbox is unchecked). -/
structure PaymentForm where
  card_name : Str
  card_number : Str
  exp : Str
  cvc : Str
  billing_postcode : Str
  agree : Option Str
deriving DecidableEq

/-- Card-number check: digits only, length 12–19 (after space removal). -/
def cardNumberOk (cs : Str) : Bool :=
  pyIsDigit cs && decide (12 ≤ cs.length) && decide (cs.length ≤ 19)

/-- Expiry check: `re.match(r"^(0[1-9]|1[0-2])\/\d{2}$", exp)`. -/
def expOk (cs : Str) : Bool :=
  accepts expReg cs

/-- CVC check: digits only, length 3 or 4. -/
def cvcOk (cs : Str) : Bool :=
  pyIsDigit cs && (cs.length == 3 || cs.length == 4)

/-- The accumulated validation errors of `payment_post`. -/
def paymentErrors (f : PaymentForm) : List String :=
  let card_name := pyStrip f.card_name
  let card_number := pyStrip (removeSpaces f.card_number)
  let exp := pyStrip f.exp
  let cvc := pyStrip f.cvc
  let billing_postcode := pyUpper (pyStrip f.billing_postcode)
  (if card_name.isEmpty then ["Name on card is required."] else [])
  ++ (if !cardNumberOk card_number then ["Card number looks invalid (digits only)."] else [])
  ++ (if !expOk exp then ["Expiry must be in MM/YY format."] else [])
  ++ (if !cvcOk cvc then ["CVC looks invalid (3 or 4 digits)."] else [])
  ++ (if !_is_valid_postcode billing_postcode then ["Billing postcode must be a valid UK postcode."] else [])
  ++ (if !pyTruthy f.agree then ["You must confirm you are authorised to use this payment method."] else [])

/-! ### Event log (`firestore_db.log_order_event`) -/

def MAX_RETRIES : Nat := 3

def RETRY_SLEEP_SECONDS : ℚ := 1

/-- Result of `log_order_event`: the returned document id (`none` when
the final `RuntimeError` is raised), the number of write attempts made,
and the sleeps performed (seconds), in order. -/
structure LogResult where
  docId : Option String
  attempts : Nat
  sleeps : List ℚ
deriving DecidableEq

/-- The `for attempt in range(1, MAX_RETRIES + 1)` loop: each attempt
either returns the fresh document id or sleeps
`RETRY_SLEEP_SECONDS * attempt` and retries; falling off the loop
raises. `oracle attempt` is the outcome of the attempt-th write. -/
def logLoop (oracle : Nat → Option String) : List Nat → Nat → List ℚ → LogResult
  | [], n, sleeps => { docId := none, attempts := n, sleeps := sleeps }
  | attempt :: rest, n, sleeps =>
    match oracle attempt with
    | some id => { docId := some id, attempts := n + 1, sleeps := sleeps }
    | none => logLoop oracle rest (n + 1) (sleeps ++ [RETRY_SLEEP_SECONDS * attempt])

/-- Function `log_order_event`, with the Firestore write abstracted by `oracle`. -/
def log_order_event (oracle : Nat → Option String) : LogResult :=
  logLoop oracle (List.range' 1 MAX_RETRIES) 0 []

/-- Helper `tell_robot`: skip when the receipt URL secret is absent; otherwise
attempt the HTTP post, swallowing any exception. Returns whether the
receipt call went through; never raises. -/
def tell_robot (url : Option String) (postOk : Bool)
    (_order_id : Nat) (_email : String) (_total : ℚ) : Bool :=
  match url with
  | none => false
  | some _ => postOk

/-! ### Order commit (`payment_post`) -/

/-- Catalog lookup `items_map.get(int(k))`: resolve a cart key against the catalog. -/
def resolveItem (db : DB) (k : Nat) : Option MenuItem :=
  db.menuItems.find? (fun mi => mi.id == k)

/-- The cart lines that resolve against the current catalog, as
`(menu_item_id, qty, current price)` triples. -/
def resolvedLines (db : DB) (cart : Cart) : List (Nat × Int × ℚ) :=
  cart.filterMap (fun e => (resolveItem db e.1).map (fun mi => (mi.id, e.2, mi.price)))

/-- The order-total loop of `payment_post`: skip unresolved ids, add
`float(mi.price) * int(qty)` for the rest. -/
def orderTotal (db : DB) (cart : Cart) : ℚ :=
  cart.foldl
    (fun total e =>
      match resolveItem db e.1 with
      | some mi => total + mi.price * (e.2 : ℚ)
      | none => total) 0

/-- The `OrderItem` insertion loop of `payment_post` (ids assigned by
autoincrement in insertion order; unresolved cart keys skipped). -/
def buildOrderItems (db : DB) (oid : Nat) : Nat → Cart → List OrderItem
  | _, [] => []
  | nextId, e :: rest =>
    match resolveItem db e.1 with
    | some mi =>
        { id := nextId, order_id := oid, menu_item_id := mi.id,
          qty := e.2, unit_price := mi.price } :: buildOrderItems db oid (nextId + 1) rest
    | none => buildOrderItems db oid nextId rest

/-- Full outcome of `payment_post`. -/
structure PayOutcome where
  sess : Session
  db : DB
  route : Route
  flashes : List String
  total : Option ℚ
  orderId : Option Nat
  logResult : Option LogResult
  receiptDelivered : Option Bool
deriving DecidableEq

/-- Handler `payment_post`: precondition gates, server-side validation, order
commit in one storage transaction, then best-effort notifications and
cart clearing.  `commitOk` is the outcome of the storage transaction:
when it is `false` the `s.commit()` raises, the transaction rolls back
and the exception propagates out of the handler, so no rows are kept
and the session is untouched. -/
def payment_post (f : PaymentForm) (sess : Session) (db : DB)
    (commitOk : Bool) (logOracle : Nat → Option String)
    (receiptUrl : Option String) (receiptPostOk : Bool) : PayOutcome :=
  if sess.cart.isEmpty then
    { sess := sess, db := db, route := .cartView, flashes := ["Your cart is empty."],
      total := none, orderId := none, logResult := none, receiptDelivered := none }
  else
    match sess.checkout with
    | none =>
      { sess := sess, db := db, route := .checkoutPage,
        flashes := ["Please enter delivery details first."],
        total := none, orderId := none, logResult := none, receiptDelivered := none }
    | some _ =>
      let errors := paymentErrors f
      if !errors.isEmpty then
        { sess := sess, db := db, route := .paymentPage, flashes := errors,
          total := none, orderId := none, logResult := none, receiptDelivered := none }
      else
        let total := orderTotal db sess.cart
        let oid := db.nextOrderId
        let order : Order := { id := oid, user_id := sess.user_id, status := "PLACED" }
        let newItems := buildOrderItems db oid db.nextOrderItemId sess.cart
        if !commitOk then
          { sess := sess, db := db, route := .serverError, flashes := [],
            total := none, orderId := none, logResult := none, receiptDelivered := none }
        else
          let db' := { db with
            orders := db.orders ++ [order]
            orderItems := db.orderItems ++ newItems
            nextOrderId := oid + 1
            nextOrderItemId := db.nextOrderItemId + newItems.length }
          let logRes := log_order_event logOracle
          let receipt := tell_robot receiptUrl receiptPostOk oid sess.email total
          { sess := { sess with cart := [] }, db := db', route := .ordersPage,
            flashes := ["Payment successful. Order #" ++ toString oid ++ " placed!"],
            total := some total, orderId := some oid,
            logResult := some logRes, receiptDelivered := some receipt }

/-! ### Admin catalog CRUD (`admin_menu_update`, `admin_menu_delete`) -/

/-- The admin menu form. -/
structure MenuForm where
  name : Str
  category : Str
  description : Str
  price : Str
deriving DecidableEq

/-- Digits of a numeral. -/
def digitsVal (cs : Str) : ℚ :=
  cs.foldl (fun acc c => acc * 10 + (c.toNat - '0'.toNat : ℚ)) 0

/-- Simplified model of Python `float(v)` on the numerals `_parse_price`
is meant for (`[sign] digits [. digits]`); other inputs fail. -/
def pyFloat? (cs : Str) : Option ℚ :=
  let (sign, body) : ℚ × Str :=
    match cs with
    | '-' :: rest => (-1, rest)
    | '+' :: rest => (1, rest)
    | _ => (1, cs)
  let intPart := body.takeWhile Char.isDigit
  let rest := body.dropWhile Char.isDigit
  match rest with
  | [] =>
    if intPart.isEmpty then none
    else some (sign * digitsVal intPart)
  | '.' :: frac =>
    if !frac.all Char.isDigit then none
    else if intPart.isEmpty && frac.isEmpty then none
    else some (sign * (digitsVal intPart + digitsVal frac / (10 : ℚ) ^ frac.length))
  | _ => none

/-- Helper `_parse_price`: strip, drop `£`, turn `,` into `.`, then `float`. -/
def _parse_price (value : Str) : Option ℚ :=
  pyFloat? (((pyStrip value).filter (fun c => !(c == '£'))).map
    (fun c => if c == ',' then '.' else c))

/-- Handler `admin_menu_update`: parse the price, save any new image, then
overwrite the item's name, category, description and price (and image
when a new one was uploaded).  `imageResult` abstracts
`save_image_upload` (`.error` = rejected file type, `.ok none` = no
file).  Only the `menu_items` table is ever written. -/
def admin_menu_update (item_id : Nat) (f : MenuForm)
    (imageResult : Except String (Option String)) (db : DB) :
    DB × Route × List String :=
  match _parse_price f.price with
  | none => (db, .adminMenuPage, ["Price must be a number like 9.99 (don’t include £)."])
  | some price =>
    match imageResult with
    | .error e => (db, .adminMenuPage, [e])
    | .ok newImage =>
      match db.menuItems.find? (fun mi => mi.id == item_id) with
      | none => (db, .adminMenuPage, ["Item not found."])
      | some _ =>
        let db' := { db with
          menuItems := db.menuItems.map (fun mi =>
            if mi.id == item_id then
              { mi with
                name := pyStrip f.name
                category := pyStrip f.category
                description := some (pyStrip f.description)
                price := price
                image := match newImage with | some img => some img | none => mi.image }
            else mi) }
        (db', .adminMenuPage, ["Menu item updated."])

/-- Handler `admin_menu_delete`: delete the row if present; flash either way. -/
def admin_menu_delete (item_id : Nat) (db : DB) : DB × Route × List String :=
  match db.menuItems.find? (fun mi => mi.id == item_id) with
  | some _ =>
    ({ db with menuItems := db.menuItems.filter (fun mi => !(mi.id == item_id)) },
      .adminMenuPage, ["Menu item deleted."])
  | none => (db, .adminMenuPage, ["Menu item deleted."])

/-- Sum of qty×unit_price over the stored `OrderItem`s of one order. -/
def storedOrderTotal (db : DB) (oid : Nat) : ℚ :=
  ((db.orderItems.filter (fun oi => oi.order_id == oid)).map
    (fun oi => (oi.qty : ℚ) * oi.unit_price)).sum

/-! ### Claim theorems -/

/-- C9: the UK postcode validator trims and uppercases its input and then
accepts exactly the language of `^(GIR 0AA|[A-Z]{1,2}\d{1,2}[A-Z]?\s?\d[A-Z]{2})$`
matched case-insensitively; the listed examples validate as the spec says. -/
theorem postcode_validator_matches_spec :
    (∀ pc : Str, _is_valid_postcode pc = true ↔ Lang UK_POSTCODE_RE (pyUpper (pyStrip pc))) ∧
    _is_valid_postcode "SW1A 1AA".toList = true ∧
    _is_valid_postcode "sw1a1aa".toList = true ∧
    _is_valid_postcode "GIR 0AA".toList = true ∧
    _is_valid_postcode "12345".toList = false ∧
    _is_valid_postcode "".toList = false ∧
    _is_valid_postcode "SW1A".toList = false := by
  refine ⟨fun pc => accepts_iff_lang UK_POSTCODE_RE (pyUpper (pyStrip pc)), ?_, ?_, ?_, ?_, ?_, ?_⟩ <;> decide

/-- C2: the admin catalog operations (`admin_menu_update`, including a price
change, and `admin_menu_delete`) never write the `orders` or `order_items`
tables, so every committed order keeps its `OrderItem` rows (qty and frozen
unit_price) verbatim and its stored total Σ qty×unit_price is unchanged. -/
theorem catalog_ops_preserve_order_totals :
    ∀ (item_id : Nat) (f : MenuForm) (imageResult : Except String (Option String)) (db : DB),
      (admin_menu_update item_id f imageResult db).1.orderItems = db.orderItems ∧
      (admin_menu_update item_id f imageResult db).1.orders = db.orders ∧
      (admin_menu_delete item_id db).1.orderItems = db.orderItems ∧
      (admin_menu_delete item_id db).1.orders = db.orders ∧
      (∀ oid, storedOrderTotal (admin_menu_update item_id f imageResult db).1 oid
        = storedOrderTotal db oid) ∧
      (∀ oid, storedOrderTotal (admin_menu_delete item_id db).1 oid
        = storedOrderTotal db oid) := by
  intro item_id f imageResult db
  refine ⟨?_, ?_, ?_, ?_, fun oid => ?_, fun oid => ?_⟩ <;>
    · simp only [admin_menu_update, admin_menu_delete]
      repeat' split
      all_goals rfl

/-- C3: if the storage transaction of `payment_post` fails mid-commit, no
`Order` or `OrderItem` row exists afterwards (the whole store is unchanged),
the session cart and checkout details are untouched for a retry, the user is
not shown a success page — and, conversely, whenever `payment_post` does not
end on the success page the session (hence the cart) is untouched, so the
cart is cleared only after a successful commit. -/
theorem commit_failure_is_atomic :
    ∀ (f : PaymentForm) (sess : Session) (db : DB) (o : Nat → Option String)
      (ru : Option String) (rk : Bool),
      (payment_post f sess db false o ru rk).db = db ∧
      (payment_post f sess db false o ru rk).sess = sess ∧
      (payment_post f sess db false o ru rk).route ≠ Route.ordersPage ∧
      (∀ commitOk, (payment_post f sess db commitOk o ru rk).route ≠ Route.ordersPage →
        (payment_post f sess db commitOk o ru rk).sess = sess ∧
        (payment_post f sess db commitOk o ru rk).db = db) := by
  intro f sess db o ru rk
  refine ⟨?_, ?_, ?_, ?_⟩
  · simp only [payment_post]
    repeat' split
    all_goals first | rfl | simp_all
  · simp only [payment_post]
    repeat' split
    all_goals first | rfl | simp_all
  · simp only [payment_post]
    repeat' split
    all_goals simp_all
  · intro commitOk
    simp only [payment_post]
    repeat' split
    all_goals simp_all

/-- Witness for `commit_failure_is_atomic`: on a concrete failing commit the
store and session are unchanged and no success page is shown. -/
theorem commit_failure_is_atomic_witness :
    (payment_post
      { card_name := "Ada Lovelace".toList, card_number := "4111111111111111".toList,
        exp := "09/27".toList, cvc := "123".toList,
        billing_postcode := "SW1A 1AA".toList, agree := some "on".toList }
      { user_id := 7, email := "ada@example.com",
        cart := [(5, 2)], checkout := some
          { full_name := "Ada Lovelace".toList, phone := "07700900000".toList,
            address1 := "1 High St".toList, address2 := [],
            city := "London".toList, postcode := "SW1A 1AA".toList } }
      { menuItems := [{ id := 5, name := "Pizza".toList, category := "Main".toList,
                        description := none, price := 9, image := none }],
        orders := [], orderItems := [], nextOrderId := 1, nextOrderItemId := 1 }
      false (fun _ => none) none false).db
      = { menuItems := [{ id := 5, name := "Pizza".toList, category := "Main".toList,
                          description := none, price := 9, image := none }],
          orders := [], orderItems := [], nextOrderId := 1, nextOrderItemId := 1 } ∧
    (payment_post
      { card_name := "Ada Lovelace".toList, card_number := "4111111111111111".toList,
        exp := "09/27".toList, cvc := "123".toList,
        billing_postcode := "SW1A 1AA".toList, agree := some "on".toList }
      { user_id := 7, email := "ada@example.com",
        cart := [(5, 2)], checkout := some
          { full_name := "Ada Lovelace".toList, phone := "07700900000".toList,
            address1 := "1 High St".toList, address2 := [],
            city := "London".toList, postcode := "SW1A 1AA".toList } }
      { menuItems := [{ id := 5, name := "Pizza".toList, category := "Main".toList,
                        description := none, price := 9, image := none }],
        orders := [], orderItems := [], nextOrderId := 1, nextOrderItemId := 1 }
      false (fun _ => none) none false).sess.cart = [(5, 2)] := by
  have h := commit_failure_is_atomic
    { card_name := "Ada Lovelace".toList, card_number := "4111111111111111".toList,
      exp := "09/27".toList, cvc := "123".toList,
      billing_postcode := "SW1A 1AA".toList, agree := some "on".toList }
    { user_id := 7, email := "ada@example.com",
      cart := [(5, 2)], checkout := some
        { full_name := "Ada Lovelace".toList, phone := "07700900000".toList,
          address1 := "1 High St".toList, address2 := [],
          city := "London".toList, postcode := "SW1A 1AA".toList } }
    { menuItems := [{ id := 5, name := "Pizza".toList, category := "Main".toList,
                      description := none, price := 9, image := none }],
      orders := [], orderItems := [], nextOrderId := 1, nextOrderItemId := 1 }
    (fun _ => none) none false
  exact ⟨h.1, ((h.2.2.2 false h.2.2.1).1).symm ▸ rfl⟩

/-- C6: `log_order_event` makes at most `MAX_RETRIES = 3` write attempts,
returns the document id of the first successful attempt, sleeps
`attempt × RETRY_SLEEP_SECONDS` after each transient failure, raises
(returns no id) only after the 3rd failure — and the checkout caller
survives any outcome: with a successful commit, `payment_post` never ends
in an unhandled error, whatever the event-log oracle does. -/
theorem log_order_event_retries_spec :
    ∀ oracle : Nat → Option String,
      (log_order_event oracle).attempts ≤ MAX_RETRIES ∧
      (∀ d, oracle 1 = some d →
        log_order_event oracle = { docId := some d, attempts := 1, sleeps := [] }) ∧
      (∀ d, oracle 1 = none → oracle 2 = some d →
        log_order_event oracle
          = { docId := some d, attempts := 2, sleeps := [RETRY_SLEEP_SECONDS * 1] }) ∧
      (∀ d, oracle 1 = none → oracle 2 = none → oracle 3 = some d →
        log_order_event oracle
          = { docId := some d, attempts := 3,
              sleeps := [RETRY_SLEEP_SECONDS * 1, RETRY_SLEEP_SECONDS * 2] }) ∧
      (oracle 1 = none → oracle 2 = none → oracle 3 = none →
        log_order_event oracle
          = { docId := none, attempts := 3,
              sleeps := [RETRY_SLEEP_SECONDS * 1, RETRY_SLEEP_SECONDS * 2,
                         RETRY_SLEEP_SECONDS * 3] }) ∧
      (∀ f sess db ru rk,
        (payment_post f sess db true oracle ru rk).route ≠ Route.serverError) := by
  intro oracle
  have hrange : List.range' 1 MAX_RETRIES = [1, 2, 3] := rfl
  refine ⟨?_, ?_, ?_, ?_, ?_, ?_⟩
  · rcases h1 : oracle 1 with _ | d1 <;> rcases h2 : oracle 2 with _ | d2 <;>
      rcases h3 : oracle 3 with _ | d3 <;>
      simp [log_order_event, hrange, logLoop, h1, h2, h3, MAX_RETRIES]
  · intro d h1
    simp [log_order_event, hrange, logLoop, h1]
  · intro d h1 h2
    simp [log_order_event, hrange, logLoop, h1, h2]
  · intro d h1 h2 h3
    simp [log_order_event, hrange, logLoop, h1, h2, h3]
  · intro h1 h2 h3
    simp [log_order_event, hrange, logLoop, h1, h2, h3]
  · intro f sess db ru rk
    simp only [payment_post]
    repeat' split
    all_goals simp_all

/-- Witness for `log_order_event_retries_spec`: with writes failing twice
and succeeding on the third attempt, the function returns the id after 3
attempts having slept 1 s and then 2 s. -/
theorem log_order_event_retries_spec_witness :
    log_order_event (fun a => if a == 3 then some "doc-3" else none)
      = { docId := some "doc-3", attempts := 3,
          sleeps := [RETRY_SLEEP_SECONDS * 1, RETRY_SLEEP_SECONDS * 2] } :=
  (log_order_event_retries_spec
    (fun a => if a == 3 then some "doc-3" else none)).2.2.2.1
    "doc-3" (by decide) (by decide) (by decide)

/-- Projection of the `OrderItem` insertion loop onto the recorded
`(menu_item_id, qty, unit_price)` triples: one item per resolved cart line. -/
theorem buildOrderItems_proj (db : DB) (oid : Nat) :
    ∀ (cart : Cart) (nextId : Nat),
      (buildOrderItems db oid nextId cart).map
          (fun oi => (oi.menu_item_id, oi.qty, oi.unit_price))
        = resolvedLines db cart := by
  intro cart
  induction cart with
  | nil => intro nextId; rfl
  | cons e rest ih =>
    intro nextId
    cases h : resolveItem db e.1 with
    | none => simp [buildOrderItems, resolvedLines, List.filterMap_cons, h, ih nextId]
    | some mi => simp [buildOrderItems, resolvedLines, List.filterMap_cons, h, ih (nextId + 1)]

/-- Every inserted `OrderItem` belongs to the freshly created order. -/
theorem buildOrderItems_order_id (db : DB) (oid : Nat) :
    ∀ (cart : Cart) (nextId : Nat) (oi : OrderItem),
      oi ∈ buildOrderItems db oid nextId cart → oi.order_id = oid := by
  intro cart
  induction cart with
  | nil => intro nextId oi h; simp [buildOrderItems] at h
  | cons e rest ih =>
    intro nextId oi h
    cases hr : resolveItem db e.1 with
    | none =>
      simp only [buildOrderItems, hr] at h
      exact ih _ _ h
    | some mi =>
      simp only [buildOrderItems, hr] at h
      rcases List.mem_cons.mp h with h | h
      · subst h; rfl
      · exact ih _ _ h

/-- The running-total loop of `payment_post`, with its accumulator made
explicit, computes the sum of `qty × price` over the resolved lines. -/
theorem orderTotal_foldl (db : DB) :
    ∀ (cart : Cart) (acc : ℚ),
      cart.foldl
        (fun total e =>
          match resolveItem db e.1 with
          | some mi => total + mi.price * (e.2 : ℚ)
          | none => total) acc
      = acc + ((resolvedLines db cart).map (fun t => (t.2.1 : ℚ) * t.2.2)).sum := by
  intro cart
  induction cart with
  | nil => intro acc; simp [resolvedLines]
  | cons e rest ih =>
    intro acc
    cases h : resolveItem db e.1 with
    | none =>
      simp only [List.foldl_cons, h, resolvedLines, List.filterMap_cons, Option.map_none']
      rw [show (resolvedLines db rest)
          = rest.filterMap (fun e => (resolveItem db e.1).map (fun mi => (mi.id, e.2, mi.price)))
        from rfl] at ih
      exact ih acc
    | some mi =>
      simp only [List.foldl_cons, h, resolvedLines, List.filterMap_cons, Option.map_some',
        List.map_cons, List.sum_cons]
      rw [show (resolvedLines db rest)
          = rest.filterMap (fun e => (resolveItem db e.1).map (fun mi => (mi.id, e.2, mi.price)))
        from rfl] at ih
      rw [ih]
      ring

/-- The order total of `payment_post` equals Σ qty×price over resolved lines. -/
theorem orderTotal_eq (db : DB) (cart : Cart) :
    orderTotal db cart
      = ((resolvedLines db cart).map (fun t => (t.2.1 : ℚ) * t.2.2)).sum := by
  unfold orderTotal
  rw [orderTotal_foldl]
  simp

/-- C1: a successful payment submission (non-empty cart, captured delivery
details, passing validation, committing transaction) creates exactly one new
`Order` with status `PLACED` and one `OrderItem` per cart entry that resolves
against the current catalog, each recording the cart quantity and the current
catalog price as `unit_price`, and the computed order total is the sum of
`qty × current price` over the resolved entries. -/
theorem payment_success_creates_single_order :
    ∀ (f : PaymentForm) (sess : Session) (db : DB) (o : Nat → Option String)
      (ru : Option String) (rk : Bool),
      sess.cart ≠ [] → sess.checkout ≠ none → paymentErrors f = [] →
      ∃ newItems : List OrderItem,
        (payment_post f sess db true o ru rk).db.orders
          = db.orders ++ [{ id := db.nextOrderId, user_id := sess.user_id, status := "PLACED" }] ∧
        (payment_post f sess db true o ru rk).db.orderItems = db.orderItems ++ newItems ∧
        newItems.map (fun oi => (oi.menu_item_id, oi.qty, oi.unit_price))
          = resolvedLines db sess.cart ∧
        (∀ oi ∈ newItems, oi.order_id = db.nextOrderId) ∧
        (payment_post f sess db true o ru rk).total
          = some (((resolvedLines db sess.cart).map (fun t => (t.2.1 : ℚ) * t.2.2)).sum) := by
  intro f sess db o ru rk hcart hco herr
  obtain ⟨cd, hcd⟩ := Option.ne_none_iff_exists'.mp hco
  have hne : sess.cart.isEmpty = false := by
    simp [List.isEmpty_iff, hcart]
  refine ⟨buildOrderItems db db.nextOrderId db.nextOrderItemId sess.cart, ?_, ?_, ?_, ?_, ?_⟩
  · simp [payment_post, hne, hcd, herr]
  · simp [payment_post, hne, hcd, herr]
  · exact buildOrderItems_proj db db.nextOrderId sess.cart db.nextOrderItemId
  · exact fun oi h => buildOrderItems_order_id db db.nextOrderId sess.cart db.nextOrderItemId oi h
  · simp [payment_post, hne, hcd, herr, orderTotal_eq]

/-- Witness for `payment_success_creates_single_order`: a concrete checkout
with cart `{5: 2}` at price 9 produces one PLACED order, one order item
`(menu_item_id 5, qty 2, unit_price 9)` and total 18. -/
theorem payment_success_creates_single_order_witness :
    ∃ newItems : List OrderItem,
      (payment_post
        { card_name := "Ada Lovelace".toList, card_number := "4111111111111111".toList,
          exp := "09/27".toList, cvc := "123".toList,
          billing_postcode := "SW1A 1AA".toList, agree := some "on".toList }
        { user_id := 7, email := "ada@example.com",
          cart := [(5, 2)], checkout := some
            { full_name := "Ada Lovelace".toList, phone := "07700900000".toList,
              address1 := "1 High St".toList, address2 := [],
              city := "London".toList, postcode := "SW1A 1AA".toList } }
        { menuItems := [{ id := 5, name := "Pizza".toList, category := "Main".toList,
                          description := none, price := 9, image := none }],
          orders := [], orderItems := [], nextOrderId := 1, nextOrderItemId := 1 }
        true (fun _ => some "doc") (some "url") true).db.orders
        = [{ id := 1, user_id := 7, status := "PLACED" }] ∧
      (payment_post
        { card_name := "Ada Lovelace".toList, card_number := "4111111111111111".toList,
          exp := "09/27".toList, cvc := "123".toList,
          billing_postcode := "SW1A 1AA".toList, agree := some "on".toList }
        { user_id := 7, email := "ada@example.com",
          cart := [(5, 2)], checkout := some
            { full_name := "Ada Lovelace".toList, phone := "07700900000".toList,
              address1 := "1 High St".toList, address2 := [],
              city := "London".toList, postcode := "SW1A 1AA".toList } }
        { menuItems := [{ id := 5, name := "Pizza".toList, category := "Main".toList,
                          description := none, price := 9, image := none }],
          orders := [], orderItems := [], nextOrderId := 1, nextOrderItemId := 1 }
        true (fun _ => some "doc") (some "url") true).db.orderItems = [] ++ newItems ∧
      newItems.map (fun oi => (oi.menu_item_id, oi.qty, oi.unit_price)) = [(5, 2, 9)] ∧
      (payment_post
        { card_name := "Ada Lovelace".toList, card_number := "4111111111111111".toList,
          exp := "09/27".toList, cvc := "123".toList,
          billing_postcode := "SW1A 1AA".toList, agree := some "on".toList }
        { user_id := 7, email := "ada@example.com",
          cart := [(5, 2)], checkout := some
            { full_name := "Ada Lovelace".toList, phone := "07700900000".toList,
              address1 := "1 High St".toList, address2 := [],
              city := "London".toList, postcode := "SW1A 1AA".toList } }
        { menuItems := [{ id := 5, name := "Pizza".toList, category := "Main".toList,
                          description := none, price := 9, image := none }],
          orders := [], orderItems := [], nextOrderId := 1, nextOrderItemId := 1 }
        true (fun _ => some "doc") (some "url") true).total = some 18 := by
  obtain ⟨newItems, h1, h2, h3, _, h5⟩ := payment_success_creates_single_order
    { card_name := "Ada Lovelace".toList, card_number := "4111111111111111".toList,
      exp := "09/27".toList, cvc := "123".toList,
      billing_postcode := "SW1A 1AA".toList, agree := some "on".toList }
    { user_id := 7, email := "ada@example.com",
      cart := [(5, 2)], checkout := some
        { full_name := "Ada Lovelace".toList, phone := "07700900000".toList,
          address1 := "1 High St".toList, address2 := [],
          city := "London".toList, postcode := "SW1A 1AA".toList } }
    { menuItems := [{ id := 5, name := "Pizza".toList, category := "Main".toList,
                      description := none, price := 9, image := none }],
      orders := [], orderItems := [], nextOrderId := 1, nextOrderItemId := 1 }
    (fun _ => some "doc") (some "url") true
    (by decide) (by decide) (by decide)
  refine ⟨newItems, h1, h2, ?_, ?_⟩
  · rw [h3]; decide
  · rw [h5]
    simp [resolvedLines, resolveItem, List.find?, List.filterMap_cons]
    norm_num

/-- C5: after a successful commit the session, store, page and flashes of
`payment_post` are identical whatever the event-log oracle and the receipt
endpoint do — so a raising `log_order_event` or failing `tell_robot` leaves
the created `Order` and its `OrderItem`s in place, the cart cleared and the
success page shown, with no error surfaced to the user-facing flow. -/
theorem notification_failures_do_not_affect_order :
    ∀ (f : PaymentForm) (sess : Session) (db : DB)
      (o₁ o₂ : Nat → Option String) (ru₁ ru₂ : Option String) (rk₁ rk₂ : Bool),
      (payment_post f sess db true o₁ ru₁ rk₁).sess = (payment_post f sess db true o₂ ru₂ rk₂).sess ∧
      (payment_post f sess db true o₁ ru₁ rk₁).db = (payment_post f sess db true o₂ ru₂ rk₂).db ∧
      (payment_post f sess db true o₁ ru₁ rk₁).route
        = (payment_post f sess db true o₂ ru₂ rk₂).route ∧
      (payment_post f sess db true o₁ ru₁ rk₁).flashes
        = (payment_post f sess db true o₂ ru₂ rk₂).flashes ∧
      (sess.cart ≠ [] → sess.checkout ≠ none → paymentErrors f = [] →
        (payment_post f sess db true o₁ ru₁ rk₁).route = Route.ordersPage ∧
        (payment_post f sess db true o₁ ru₁ rk₁).sess.cart = [] ∧
        (payment_post f sess db true o₁ ru₁ rk₁).sess.checkout = sess.checkout ∧
        (payment_post f sess db true o₁ ru₁ rk₁).db.orders
          = db.orders ++ [{ id := db.nextOrderId, user_id := sess.user_id, status := "PLACED" }] ∧
        (payment_post f sess db true o₁ ru₁ rk₁).db.orderItems
          = db.orderItems ++ buildOrderItems db db.nextOrderId db.nextOrderItemId sess.cart) := by
  intro f sess db o₁ o₂ ru₁ ru₂ rk₁ rk₂
  refine ⟨?_, ?_, ?_, ?_, ?_⟩
  · simp only [payment_post]; repeat' split; all_goals first | rfl | simp_all
  · simp only [payment_post]; repeat' split; all_goals first | rfl | simp_all
  · simp only [payment_post]; repeat' split; all_goals first | rfl | simp_all
  · simp only [payment_post]; repeat' split; all_goals first | rfl | simp_all
  · intro hcart hco herr
    obtain ⟨cd, hcd⟩ := Option.ne_none_iff_exists'.mp hco
    have hne : sess.cart.isEmpty = false := by
      simp [List.isEmpty_iff, hcart]
    refine ⟨?_, ?_, ?_, ?_, ?_⟩ <;> simp [payment_post, hne, hcd, herr]

/-- Witness for `notification_failures_do_not_affect_order`: a concrete
successful commit where the event log always raises and the receipt call
fails still ends on the orders page with the cart cleared and one PLACED
order in the store. -/
theorem notification_failures_do_not_affect_order_witness :
    (payment_post
      { card_name := "Ada Lovelace".toList, card_number := "4111111111111111".toList,
        exp := "09/27".toList, cvc := "123".toList,
        billing_postcode := "SW1A 1AA".toList, agree := some "on".toList }
      { user_id := 7, email := "ada@example.com",
        cart := [(5, 2)], checkout := some
          { full_name := "Ada Lovelace".toList, phone := "07700900000".toList,
            address1 := "1 High St".toList, address2 := [],
            city := "London".toList, postcode := "SW1A 1AA".toList } }
      { menuItems := [{ id := 5, name := "Pizza".toList, category := "Main".toList,
                        description := none, price := 9, image := none }],
        orders := [], orderItems := [], nextOrderId := 1, nextOrderItemId := 1 }
      true (fun _ => none) none false).route = Route.ordersPage ∧
    (payment_post
      { card_name := "Ada Lovelace".toList, card_number := "4111111111111111".toList,
        exp := "09/27".toList, cvc := "123".toList,
        billing_postcode := "SW1A 1AA".toList, agree := some "on".toList }
      { user_id := 7, email := "ada@example.com",
        cart := [(5, 2)], checkout := some
          { full_name := "Ada Lovelace".toList, phone := "07700900000".toList,
            address1 := "1 High St".toList, address2 := [],
            city := "London".toList, postcode := "SW1A 1AA".toList } }
      { menuItems := [{ id := 5, name := "Pizza".toList, category := "Main".toList,
                        description := none, price := 9, image := none }],
        orders := [], orderItems := [], nextOrderId := 1, nextOrderItemId := 1 }
      true (fun _ => none) none false).sess.cart = [] ∧
    (payment_post
      { card_name := "Ada Lovelace".toList, card_number := "4111111111111111".toList,
        exp := "09/27".toList, cvc := "123".toList,
        billing_postcode := "SW1A 1AA".toList, agree := some "on".toList }
      { user_id := 7, email := "ada@example.com",
        cart := [(5, 2)], checkout := some
          { full_name := "Ada Lovelace".toList, phone := "07700900000".toList,
            address1 := "1 High St".toList, address2 := [],
            city := "London".toList, postcode := "SW1A 1AA".toList } }
      { menuItems := [{ id := 5, name := "Pizza".toList, category := "Main".toList,
                        description := none, price := 9, image := none }],
        orders := [], orderItems := [], nextOrderId := 1, nextOrderItemId := 1 }
      true (fun _ => none) none false).db.orders = [{ id := 1, user_id := 7, status := "PLACED" }] := by
  have h := (notification_failures_do_not_affect_order
    { card_name := "Ada Lovelace".toList, card_number := "4111111111111111".toList,
      exp := "09/27".toList, cvc := "123".toList,
      billing_postcode := "SW1A 1AA".toList, agree := some "on".toList }
    { user_id := 7, email := "ada@example.com",
      cart := [(5, 2)], checkout := some
        { full_name := "Ada Lovelace".toList, phone := "07700900000".toList,
          address1 := "1 High St".toList, address2 := [],
          city := "London".toList, postcode := "SW1A 1AA".toList } }
    { menuItems := [{ id := 5, name := "Pizza".toList, category := "Main".toList,
                      description := none, price := 9, image := none }],
      orders := [], orderItems := [], nextOrderId := 1, nextOrderItemId := 1 }
    (fun _ => none) (fun _ => none) none none false false).2.2.2.2
    (by decide) (by decide) (by decide)
  exact ⟨h.1, h.2.1, by rw [h.2.2.2.1]; decide⟩

/-- C10: a payment submission over a non-empty cart none of whose item ids
resolves against the catalog still succeeds: it creates an order with zero
`OrderItem` rows and computed total 0.0, clears the cart and reports
success, rather than failing. -/
theorem stale_cart_payment_still_succeeds :
    (payment_post
      { card_name := "Ada Lovelace".toList, card_number := "4111111111111111".toList,
        exp := "09/27".toList, cvc := "123".toList,
        billing_postcode := "SW1A 1AA".toList, agree := some "on".toList }
      { user_id := 7, email := "ada@example.com",
        cart := [(1, 2)], checkout := some
          { full_name := "Ada Lovelace".toList, phone := "07700900000".toList,
            address1 := "1 High St".toList, address2 := [],
            city := "London".toList, postcode := "SW1A 1AA".toList } }
      { menuItems := [{ id := 5, name := "Pizza".toList, category := "Main".toList,
                        description := none, price := 9, image := none }],
        orders := [], orderItems := [], nextOrderId := 1, nextOrderItemId := 1 }
      true (fun _ => some "doc") (some "url") true).db.orders
      = [{ id := 1, user_id := 7, status := "PLACED" }] ∧
    (payment_post
      { card_name := "Ada Lovelace".toList, card_number := "4111111111111111".toList,
        exp := "09/27".toList, cvc := "123".toList,
        billing_postcode := "SW1A 1AA".toList, agree := some "on".toList }
      { user_id := 7, email := "ada@example.com",
        cart := [(1, 2)], checkout := some
          { full_name := "Ada Lovelace".toList, phone := "07700900000".toList,
            address1 := "1 High St".toList, address2 := [],
            city := "London".toList, postcode := "SW1A 1AA".toList } }
      { menuItems := [{ id := 5, name := "Pizza".toList, category := "Main".toList,
                        description := none, price := 9, image := none }],
        orders := [], orderItems := [], nextOrderId := 1, nextOrderItemId := 1 }
      true (fun _ => some "doc") (some "url") true).db.orderItems = [] ∧
    (payment_post
      { card_name := "Ada Lovelace".toList, card_number := "4111111111111111".toList,
        exp := "09/27".toList, cvc := "123".toList,
        billing_postcode := "SW1A 1AA".toList, agree := some "on".toList }
      { user_id := 7, email := "ada@example.com",
        cart := [(1, 2)], checkout := some
          { full_name := "Ada Lovelace".toList, phone := "07700900000".toList,
            address1 := "1 High St".toList, address2 := [],
            city := "London".toList, postcode := "SW1A 1AA".toList } }
      { menuItems := [{ id := 5, name := "Pizza".toList, category := "Main".toList,
                        description := none, price := 9, image := none }],
        orders := [], orderItems := [], nextOrderId := 1, nextOrderItemId := 1 }
      true (fun _ => some "doc") (some "url") true).total = some 0 ∧
    (payment_post
      { card_name := "Ada Lovelace".toList, card_number := "4111111111111111".toList,
        exp := "09/27".toList, cvc := "123".toList,
        billing_postcode := "SW1A 1AA".toList, agree := some "on".toList }
      { user_id := 7, email := "ada@example.com",
        cart := [(1, 2)], checkout := some
          { full_name := "Ada Lovelace".toList, phone := "07700900000".toList,
            address1 := "1 High St".toList, address2 := [],
            city := "London".toList, postcode := "SW1A 1AA".toList } }
      { menuItems := [{ id := 5, name := "Pizza".toList, category := "Main".toList,
                        description := none, price := 9, image := none }],
        orders := [], orderItems := [], nextOrderId := 1, nextOrderItemId := 1 }
      true (fun _ => some "doc") (some "url") true).sess.cart = [] ∧
    (payment_post
      { card_name := "Ada Lovelace".toList, card_number := "4111111111111111".toList,
        exp := "09/27".toList, cvc := "123".toList,
        billing_postcode := "SW1A 1AA".toList, agree := some "on".toList }
      { user_id := 7, email := "ada@example.com",
        cart := [(1, 2)], checkout := some
          { full_name := "Ada Lovelace".toList, phone := "07700900000".toList,
            address1 := "1 High St".toList, address2 := [],
            city := "London".toList, postcode := "SW1A 1AA".toList } }
      { menuItems := [{ id := 5, name := "Pizza".toList, category := "Main".toList,
                        description := none, price := 9, image := none }],
        orders := [], orderItems := [], nextOrderId := 1, nextOrderItemId := 1 }
      true (fun _ => some "doc") (some "url") true).route = Route.ordersPage := by
  refine ⟨?_, ?_, ?_, ?_, ?_⟩ <;> decide

/-- Counterexample to C4: a delivery-details submission with every field
empty fails validation (the user is sent back to the checkout page) — yet,
because `checkout_post` stores the submitted values in `session["checkout"]`
on the failure path too and that stored dict is always truthy, a subsequent
request for the payment step passes the gate and enters the payment page.
So a failed validation does enable payment-step entry, contrary to the claim. -/
theorem failed_details_enable_payment_cex :
    checkoutErrors
      { full_name := [], phone := [], address1 := [], address2 := [], city := [], postcode := [] }
      ≠ [] ∧
    (checkout_post
      { full_name := [], phone := [], address1 := [], address2 := [], city := [], postcode := [] }
      { user_id := 1, email := "u@example.com", cart := [(1, 1)], checkout := none }).route
      = Route.checkoutPage ∧
    payment
      (checkout_post
        { full_name := [], phone := [], address1 := [], address2 := [], city := [], postcode := [] }
        { user_id := 1, email := "u@example.com", cart := [(1, 1)],
          checkout := none }).sess
      = Route.paymentPage := by
  refine ⟨?_, ?_, ?_⟩ <;> decide

/-- C4 as amended: payment-step entry (GET or POST `/payment`) requires a
non-empty cart and the *presence* of delivery details in the session — not a
previously *successful* validation.  Every delivery-details submission,
valid or invalid, stores the submitted values in the session (so the form
can be re-populated); a failing submission keeps the user at the details
step, but it still enables later payment-step entry. -/
theorem payment_gate_amended :
    ∀ (sess : Session) (f : CheckoutForm),
      (payment sess = Route.paymentPage ↔ sess.cart ≠ [] ∧ sess.checkout ≠ none) ∧
      (checkout_post f sess).sess.checkout = some (checkoutFormData f) ∧
      (checkout_post f sess).sess.cart = sess.cart ∧
      (checkoutErrors f ≠ [] → (checkout_post f sess).route = Route.checkoutPage) ∧
      (checkoutErrors f = [] → (checkout_post f sess).route = Route.paymentPage) ∧
      (sess.cart ≠ [] → payment (checkout_post f sess).sess = Route.paymentPage) ∧
      (∀ (pf : PaymentForm) (db : DB) (c : Bool) (o : Nat → Option String)
          (ru : Option String) (rk : Bool),
        sess.cart = [] →
          (payment_post pf sess db c o ru rk).route = Route.cartView) ∧
      (∀ (pf : PaymentForm) (db : DB) (c : Bool) (o : Nat → Option String)
          (ru : Option String) (rk : Bool),
        sess.cart ≠ [] → sess.checkout = none →
          (payment_post pf sess db c o ru rk).route = Route.checkoutPage) := by
  intro sess f
  have hstore : (checkout_post f sess).sess.checkout = some (checkoutFormData f) := by
    simp only [checkout_post]
    split <;> rfl
  have hcart : (checkout_post f sess).sess.cart = sess.cart := by
    simp only [checkout_post]
    split <;> rfl
  refine ⟨?_, hstore, hcart, ?_, ?_, ?_, ?_, ?_⟩
  · constructor
    · intro h
      by_cases hc : sess.cart.isEmpty
      · simp [payment, hc] at h
      · by_cases hk : sess.checkout.isNone
        · simp [payment, hc, hk] at h
        · exact ⟨by simpa [List.isEmpty_iff] using hc, by simpa [Option.isNone_iff_eq_none] using hk⟩
    · rintro ⟨h1, h2⟩
      simp [payment, List.isEmpty_iff, Option.isNone_iff_eq_none, h1, h2]
  · intro he
    simp only [checkout_post]
    split
    · rfl
    · rename_i h
      simp only [Bool.not_eq_true', List.isEmpty_iff] at *
      exact absurd (by simpa using h) he
  · intro he
    simp only [checkout_post]
    split
    · rename_i h
      simp [he] at h
    · rfl
  · intro hne
    simp [payment, List.isEmpty_iff, hcart, hne, hstore, Option.isNone_iff_eq_none]
  · intro pf db c o ru rk hc
    simp [payment_post, hc]
  · intro pf db c o ru rk hc hk
    simp [payment_post, List.isEmpty_iff, hc, hk]

/-- Witness for `payment_gate_amended`: after an invalid submission over a
non-empty cart the payment gate is passed, and with an empty cart the
payment POST is redirected to the cart view. -/
theorem payment_gate_amended_witness :
    payment
      (checkout_post
        { full_name := [], phone := [], address1 := [], address2 := [], city := [], postcode := [] }
        { user_id := 1, email := "u@example.com", cart := [(2, 1)],
          checkout := none }).sess
      = Route.paymentPage ∧
    (payment_post
      { card_name := [], card_number := [], exp := [], cvc := [],
        billing_postcode := [], agree := none }
      { user_id := 1, email := "u@example.com", cart := [], checkout := none }
      { menuItems := [], orders := [], orderItems := [], nextOrderId := 1, nextOrderItemId := 1 }
      true (fun _ => none) none false).route = Route.cartView := by
  have h := payment_gate_amended
    { user_id := 1, email := "u@example.com", cart := [(2, 1)], checkout := none }
    { full_name := [], phone := [], address1 := [], address2 := [], city := [], postcode := [] }
  have h2 := payment_gate_amended
    { user_id := 1, email := "u@example.com", cart := [], checkout := none }
    { full_name := [], phone := [], address1 := [], address2 := [], city := [], postcode := [] }
  exact ⟨h.2.2.2.2.2.1 (by decide),
    h2.2.2.2.2.2.2.1
      { card_name := [], card_number := [], exp := [], cvc := [],
        billing_postcode := [], agree := none }
      { menuItems := [], orders := [], orderItems := [], nextOrderId := 1, nextOrderItemId := 1 }
      true (fun _ => none) none false (by decide)⟩

/-- Emptiness of a one-flag error fragment. -/
theorem flagList_nil {p : Prop} [Decidable p] {m : String} :
    (if p then [m] else ([] : List String)) = [] ↔ ¬p := by
  split <;> simp [*]

/-- Spec-side acceptance predicate for the payment-field validator, after
the claim: cardholder name non-empty, card number (spaces removed)
digits-only of length 12–19, expiry in the language of `MM/YY` with month
01–12 (the `expReg` language), CVC digits-only of length 3 or 4, billing
postcode a valid UK postcode, authorization checkbox set.  Fields are read
as the handler reads them (whitespace-stripped). -/
def paymentFieldsSpec (f : PaymentForm) : Prop :=
  pyStrip f.card_name ≠ [] ∧
  (∀ c ∈ pyStrip (removeSpaces f.card_number), c.isDigit = true) ∧
  12 ≤ (pyStrip (removeSpaces f.card_number)).length ∧
  (pyStrip (removeSpaces f.card_number)).length ≤ 19 ∧
  Lang expReg (pyStrip f.exp) ∧
  (∀ c ∈ pyStrip f.cvc, c.isDigit = true) ∧
  ((pyStrip f.cvc).length = 3 ∨ (pyStrip f.cvc).length = 4) ∧
  _is_valid_postcode (pyUpper (pyStrip f.billing_postcode)) = true ∧
  pyTruthy f.agree = true

/-- C8: `payment_post` accepts a submission (empty error list) iff exactly
the claimed field conditions hold; the claim's examples behave as stated
(16-digit card number valid, 3-digit one too short, month 13 rejected,
`09/27` accepted, CVC of 2 digits rejected, of 3 or 4 accepted). -/
theorem payment_validator_accepts_iff :
    (∀ f : PaymentForm, paymentErrors f = [] ↔ paymentFieldsSpec f) ∧
    cardNumberOk "4111111111111111".toList = true ∧
    cardNumberOk "123".toList = false ∧
    expOk "13/25".toList = false ∧
    expOk "09/27".toList = true ∧
    cvcOk "12".toList = false ∧
    cvcOk "123".toList = true ∧
    cvcOk "1234".toList = true := by
  refine ⟨?_, by decide, by decide, by decide, by decide, by decide, by decide, by decide⟩
  intro f
  have hb1 : 12 ≤ (pyStrip (removeSpaces f.card_number)).length →
      ¬pyStrip (removeSpaces f.card_number) = [] := by
    intro h hc
    rw [hc] at h
    simp at h
  have hb2 : (pyStrip f.cvc).length = 3 ∨ (pyStrip f.cvc).length = 4 →
      ¬pyStrip f.cvc = [] := by
    rintro (h | h) hc <;> (rw [hc] at h; simp at h)
  simp only [paymentErrors, paymentFieldsSpec, List.append_eq_nil, flagList_nil,
    cardNumberOk, cvcOk, expOk, pyIsDigit, Bool.and_eq_true,
    Bool.or_eq_true, decide_eq_true_eq, List.all_eq_true, beq_iff_eq,
    List.isEmpty_eq_false, List.isEmpty_eq_true, Bool.not_eq_true,
    Bool.not_eq_false, Bool.not_eq_false', Bool.not_eq_true', accepts_iff_lang, ne_eq]
  constructor
  · rintro ⟨⟨⟨⟨⟨h1, ⟨⟨⟨hcn, hdig⟩, h12⟩, h19⟩⟩, hexp⟩, ⟨⟨hcvc, hcdig⟩, hlen⟩⟩, hpc⟩, hag⟩
    exact ⟨h1, hdig, h12, h19, hexp, hcdig, hlen, hpc, hag⟩
  · rintro ⟨h1, hdig, h12, h19, hexp, hcdig, hlen, hpc, hag⟩
    exact ⟨⟨⟨⟨⟨h1, ⟨⟨⟨hb1 h12, hdig⟩, h12⟩, h19⟩⟩, hexp⟩, ⟨⟨hb2 hlen, hcdig⟩, hlen⟩⟩, hpc⟩, hag⟩

/-- Lookup after assigning the same key. -/
theorem cartFind_cartSet_self (cart : Cart) (k : Nat) (v : Int) :
    cartFind (cartSet cart k v) k = some v := by
  induction cart with
  | nil => simp [cartSet, cartFind]
  | cons e rest ih =>
    by_cases h : e.1 == k
    · simp [cartSet, cartFind, h]
    · simpa [cartSet, cartFind, h] using ih

/-- Lookup after assigning a different key. -/
theorem cartFind_cartSet_ne (cart : Cart) (k y : Nat) (v : Int) (hne : y ≠ k) :
    cartFind (cartSet cart y v) k = cartFind cart k := by
  induction cart with
  | nil => simp [cartSet, cartFind, hne]
  | cons e rest ih =>
    by_cases h : e.1 == y
    · have h1 : (e.1 == k) = false := by
        simp only [beq_iff_eq] at h
        simp only [beq_eq_false_iff_ne]
        omega
      simp [cartSet, cartFind, h, h1, hne]
    · by_cases h2 : e.1 == k
      · simp [cartSet, cartFind, h, h2]
      · simpa [cartSet, cartFind, h, h2] using ih

/-- Lookup after removing the same key. -/
theorem cartFind_cartPop_self (cart : Cart) (k : Nat) :
    cartFind (cartPop cart k) k = none := by
  induction cart with
  | nil => simp [cartPop, cartFind]
  | cons e rest ih =>
    by_cases h : e.1 == k
    · simp only [cartPop, cartFind] at ih ⊢
      simp [h, ih]
    · simp only [cartPop, cartFind] at ih ⊢
      simp [h, ih]

/-- Lookup after removing a different key. -/
theorem cartFind_cartPop_ne (cart : Cart) (k y : Nat) (hne : y ≠ k) :
    cartFind (cartPop cart y) k = cartFind cart k := by
  induction cart with
  | nil => simp [cartPop, cartFind]
  | cons e rest ih =>
    by_cases h : e.1 == y
    · have h1 : (e.1 == k) = false := by
        simp only [beq_iff_eq] at h
        simp only [beq_eq_false_iff_ne]
        omega
      simpa [cartPop, cartFind, h, h1] using ih
    · by_cases h2 : e.1 == k
      · simp [cartPop, cartFind, h, h2]
      · simpa [cartPop, cartFind, h, h2] using ih

/-- Dict lookup with default as a function of the optional lookup. -/
theorem cartGet_eq_find (cart : Cart) (k : Nat) :
    cartGet cart k = (cartFind cart k).getD 0 := by
  unfold cartGet cartFind
  cases h : cart.find? (fun e => e.1 == k) <;> simp [h]

/-- Membership after dict assignment. -/
theorem mem_cartSet (cart : Cart) (k : Nat) (v : Int) :
    ∀ e ∈ cartSet cart k v, e = (k, v) ∨ e ∈ cart := by
  induction cart with
  | nil => simp [cartSet]
  | cons e rest ih =>
    intro e' he'
    by_cases h : e.1 == k
    · simp only [cartSet, h, if_pos] at he'
      rcases List.mem_cons.mp he' with h1 | h1
      · exact Or.inl h1
      · exact Or.inr (List.mem_cons_of_mem _ h1)
    · simp only [cartSet, h] at he'
      rcases List.mem_cons.mp he' with h1 | h1
      · exact Or.inr (h1 ▸ List.mem_cons_self _ _)
      · rcases ih e' h1 with h2 | h2
        · exact Or.inl h2
        · exact Or.inr (List.mem_cons_of_mem _ h2)

/-- Stored quantities stay ≥ 1 across any single cart request. -/
theorem applyCartOp_pos (cart : Cart) (op : CartOp)
    (hinv : ∀ e ∈ cart, 1 ≤ e.2) :
    ∀ e ∈ applyCartOp cart op, 1 ≤ e.2 := by
  have hget : ∀ k, 0 ≤ cartGet cart k := by
    intro k
    rw [cartGet_eq_find]
    unfold cartFind
    cases h : cart.find? (fun e => e.1 == k) with
    | none => simp
    | some e =>
      have := hinv e (List.mem_of_find?_eq_some h)
      simp
      omega
  cases op with
  | add i =>
    intro e he
    rcases mem_cartSet cart i (cartGet cart i + 1) e he with h | h
    · rw [h]
      have := hget i
      omega
    · exact hinv e h
  | update i a =>
    intro e he
    simp only [applyCartOp, cart_update] at he
    repeat' split at he
    all_goals
      first
      | exact hinv e (List.mem_of_mem_filter he)
      | (rcases mem_cartSet _ _ _ e he with h | h
         · rw [h]; omega
         · exact hinv e h)
  | remove i =>
    intro e he
    exact hinv e (List.mem_of_mem_filter he)

/-- All stored cart quantities are ≥ 1 after any request sequence from a
cart whose quantities are ≥ 1. -/
theorem runCartOps_pos :
    ∀ (ops : List CartOp) (cart : Cart),
      (∀ e ∈ cart, 1 ≤ e.2) → ∀ e ∈ runCartOps ops cart, 1 ≤ e.2 := by
  intro ops
  induction ops with
  | nil => intro cart h; simpa [runCartOps] using h
  | cons op rest ih =>
    intro cart h
    simpa [runCartOps] using ih (applyCartOp cart op) (applyCartOp_pos cart op h)

/-- Net-quantity invariant for one tracked item `x`: if the cart's lookup of
`x` reflects a running net `n` (absent iff `n = 0`, stored iff `n ≥ 1`), then
a request sequence that never removes `x` and whose running net never drops
below 0 ends with the lookup reflecting `n` plus the net of the sequence. -/
theorem runCartOps_net :
    ∀ (ops : List CartOp) (cart : Cart) (x : Nat) (n : Int),
      ((n = 0 ∧ cartFind cart x = none) ∨ (1 ≤ n ∧ cartFind cart x = some n)) →
      noRemoveOf x ops = true →
      prefixNetsOk x ops n = true →
      ((n + netOps x ops = 0 ∧ cartFind (runCartOps ops cart) x = none) ∨
       (1 ≤ n + netOps x ops ∧
         cartFind (runCartOps ops cart) x = some (n + netOps x ops))) := by
  intro ops
  induction ops with
  | nil =>
    intro cart x n hinv _ _
    simpa [runCartOps, netOps] using hinv
  | cons op rest ih =>
    intro cart x n hinv hnorem hpre
    simp only [noRemoveOf, List.all_cons, Bool.and_eq_true] at hnorem
    obtain ⟨hnr1, hnr2⟩ := hnorem
    simp only [prefixNetsOk, Bool.and_eq_true, decide_eq_true_eq] at hpre
    obtain ⟨hpre1, hpre2⟩ := hpre
    have hn0 : 0 ≤ n := by
      rcases hinv with ⟨h0, _⟩ | ⟨h1, _⟩ <;> omega
    have hstep :
        (((n + netOp x op = 0 ∧ cartFind (applyCartOp cart op) x = none) ∨
          (1 ≤ n + netOp x op ∧
            cartFind (applyCartOp cart op) x = some (n + netOp x op)))) := by
      cases op with
      | add i =>
        by_cases hix : i = x
        · subst hix
          rw [show netOp i (CartOp.add i) = 1 from by simp [netOp]]
          right
          refine ⟨by omega, ?_⟩
          rcases hinv with ⟨h0, hfind⟩ | ⟨h1, hfind⟩
          · have hget : cartGet cart i = n := by
              rw [cartGet_eq_find, hfind]
              simp [h0]
            simp only [applyCartOp, cart_add, hget]
            exact cartFind_cartSet_self cart i (n + 1)
          · have hget : cartGet cart i = n := by
              rw [cartGet_eq_find, hfind]
              rfl
            simp only [applyCartOp, cart_add, hget]
            exact cartFind_cartSet_self cart i (n + 1)
        · rw [show netOp x (CartOp.add i) = 0 from by simp [netOp, hix], add_zero]
          have hpres : cartFind (applyCartOp cart (CartOp.add i)) x = cartFind cart x := by
            simp only [applyCartOp, cart_add]
            exact cartFind_cartSet_ne cart x i _ hix
          rw [hpres]
          exact hinv
      | update i a =>
        by_cases hix : i = x
        · subst hix
          have hget : cartGet cart i = n := by
            rcases hinv with ⟨h0, hfind⟩ | ⟨h1, hfind⟩
            · rw [cartGet_eq_find, hfind]
              simp [h0]
            · rw [cartGet_eq_find, hfind]
              rfl
          have hqd :
              (if a == "inc".toList then cartGet cart i + 1
               else if a == "dec".toList then cartGet cart i - 1
               else cartGet cart i) = n + netOp i (CartOp.update i a) := by
            by_cases ha1 : (a == "inc".toList) = true
            · rw [if_pos ha1, hget]
              rw [beq_iff_eq] at ha1
              simp [netOp, ha1]
            · rw [if_neg ha1]
              by_cases ha2 : (a == "dec".toList) = true
              · rw [if_pos ha2, hget]
                rw [beq_iff_eq] at ha1 ha2
                simp [netOp, ha1, ha2]
                ring
              · rw [if_neg ha2, hget]
                have h1 : netOp i (CartOp.update i a) = 0 := by
                  simp only [netOp, beq_self_eq_true]
                  rw [if_pos trivial, if_neg ha1, if_neg ha2]
                rw [h1, add_zero]
          have happ :
              applyCartOp cart (CartOp.update i a)
                = (if n + netOp i (CartOp.update i a) ≤ 0 then cartPop cart i
                   else cartSet cart i (n + netOp i (CartOp.update i a))) := by
            simp only [applyCartOp, cart_update, hqd]
          by_cases hz : n + netOp i (CartOp.update i a) ≤ 0
          · left
            refine ⟨by have := hpre1; omega, ?_⟩
            rw [happ, if_pos hz]
            exact cartFind_cartPop_self cart i
          · right
            refine ⟨by omega, ?_⟩
            rw [happ, if_neg hz]
            exact cartFind_cartSet_self cart i (n + netOp i (CartOp.update i a))
        · rw [show netOp x (CartOp.update i a) = 0 from by simp [netOp, hix], add_zero]
          have hpres :
              cartFind (applyCartOp cart (CartOp.update i a)) x = cartFind cart x := by
            simp only [applyCartOp, cart_update]
            repeat' split
            all_goals first
              | exact cartFind_cartPop_ne cart x i hix
              | exact cartFind_cartSet_ne cart x i _ hix
          rw [hpres]
          exact hinv
      | remove i =>
        have hix : i ≠ x := by
          simpa [beq_eq_false_iff_ne] using hnr1
        rw [show netOp x (CartOp.remove i) = 0 from by simp [netOp], add_zero]
        have hpres : cartFind (applyCartOp cart (CartOp.remove i)) x = cartFind cart x := by
          simp only [applyCartOp, cart_remove]
          exact cartFind_cartPop_ne cart x i hix
        rw [hpres]
        exact hinv
    have hrec := ih (applyCartOp cart op) x (n + netOp x op) hstep
      (by simpa [noRemoveOf] using hnr2) hpre2
    have hnet : netOps x (op :: rest) = netOp x op + netOps x rest := by
      simp [netOps]
    have hrun : runCartOps (op :: rest) cart = runCartOps rest (applyCartOp cart op) := rfl
    rw [hrun, hnet, ← add_assoc]
    exact hrec

/-- Counterexample to C7: the claim's net-count bookkeeping breaks as soon
as a `remove` or a clamped decrement intervenes.  For
`[add 1, add 1, remove 1, add 1]` the net increments minus decrements is 3
(so the claim predicts quantity 3) but the stored quantity is 1; for
`[add 1, dec 1, dec 1, inc 1]` the net is 0 (so the claim predicts absence)
but item 1 is present with quantity 1. -/
theorem cart_net_quantity_cex :
    netOps 1 [CartOp.add 1, CartOp.add 1, CartOp.remove 1, CartOp.add 1] = 3 ∧
    cartFind (runCartOps [CartOp.add 1, CartOp.add 1, CartOp.remove 1, CartOp.add 1] []) 1
      = some 1 ∧
    cartFind (runCartOps [CartOp.add 1, CartOp.add 1, CartOp.remove 1, CartOp.add 1] []) 1
      ≠ some (netOps 1 [CartOp.add 1, CartOp.add 1, CartOp.remove 1, CartOp.add 1]) ∧
    netOps 1 [CartOp.add 1, CartOp.update 1 "dec".toList, CartOp.update 1 "dec".toList,
      CartOp.update 1 "inc".toList] ≤ 0 ∧
    cartFind (runCartOps [CartOp.add 1, CartOp.update 1 "dec".toList,
      CartOp.update 1 "dec".toList, CartOp.update 1 "inc".toList] []) 1 = some 1 := by
  refine ⟨?_, ?_, ?_, ?_, ?_⟩ <;> decide

/-- C7 as amended: starting from an empty cart, (a) no cart entry ever holds
a quantity ≤ 0 after any request sequence; and (b) for an item that the
sequence never `remove`s and whose running net (adds and incs minus decs)
never drops below 0 at any prefix, the final stored quantity equals the net
whenever the net is ≥ 1, and the item is absent whenever the net is ≤ 0.
Without those two conditions the equality fails (see the counterexample):
a `remove`, or a decrement of an absent item, resets the clamped count. -/
theorem cart_quantities_clamped :
    ∀ (ops : List CartOp) (x : Nat),
      (∀ e ∈ runCartOps ops [], 1 ≤ e.2) ∧
      (noRemoveOf x ops = true → prefixNetsOk x ops 0 = true →
        (1 ≤ netOps x ops → cartFind (runCartOps ops []) x = some (netOps x ops)) ∧
        (netOps x ops ≤ 0 → cartFind (runCartOps ops []) x = none)) := by
  intro ops x
  constructor
  · exact runCartOps_pos ops [] (by simp)
  · intro hnr hpre
    have h := runCartOps_net ops [] x 0 (Or.inl ⟨rfl, rfl⟩) hnr hpre
    rw [zero_add] at h
    constructor
    · intro h1
      rcases h with ⟨h0, _⟩ | ⟨_, hf⟩
      · omega
      · exact hf
    · intro h1
      rcases h with ⟨_, hf⟩ | ⟨h2, _⟩
      · exact hf
      · omega

/-- Witness for `cart_quantities_clamped`: for the remove-free sequence
`[add 2, inc 2, dec 2]` with nonnegative running nets, the stored quantity
is the net, namely 1. -/
theorem cart_quantities_clamped_witness :
    cartFind (runCartOps
      [CartOp.add 2, CartOp.update 2 "inc".toList, CartOp.update 2 "dec".toList] []) 2
      = some 1 := by
  have h := ((cart_quantities_clamped
    [CartOp.add 2, CartOp.update 2 "inc".toList, CartOp.update 2 "dec".toList] 2).2
    (by decide) (by decide)).1 (by decide)
  rw [h]
  decide

end Restaurant
